import Mathlib

/-!
Shallow embedding of the queue-coordination core of `src/App.js`
(walk-in salon queue app: admission, staff transitions, position and
wait estimation, routing-based access control).

Modelling decisions:
* Firestore document ids and auth uids are opaque identifiers, embedded
  as `Nat`.
* The strings `"waiting"`, `"in-service"`, `"completed"` used by the
  source become the constructors `waiting`, `inService`, `completed` of
  `Status`.  The spec's fourth status `Removed` is the constructor
  `removed`; the source never writes it (staff removal deletes the
  document instead), which is exactly what claim C6 is about.
* `serverTimestamp()` is embedded as a parameter `now` supplied by the
  store at write time, together with the fresh document id `newId` that
  `addDoc` generates.
* A Firestore snapshot of the query
  `where status in [waiting, in-service] orderBy createdAt`
  is embedded as the list of matching entries in rank order.
* `await getDocs` / `await updateDoc` etc. are sequential here: each
  handler is a function from the store state to the next store state
  plus its result, which models a single uninterleaved execution.
-/

/-- Status values stored in the `status` field of a queue document.
The source writes only the first three; `removed` exists in the spec's
vocabulary but is never assigned by the code. -/
inductive Status where
  | waiting
  | inService
  | completed
  | removed
deriving DecidableEq, Repr

/-- Account roles, from the `role` field of a `users` document. -/
inductive Role where
  | customer
  | staff
  | owner
deriving DecidableEq, Repr

/-- A document of the `services` collection. -/
structure Service where
  id : Nat
  name : String
  duration : Int
  price : Int
deriving DecidableEq, Repr

/-- A document of the `queue` collection, with the fields written by
`handleJoinQueue` in `ServiceSelectionPage`. -/
structure QueueEntry where
  id : Nat
  userId : Nat
  userName : String
  userPhone : Option String
  serviceId : Nat
  serviceName : String
  serviceDuration : Int
  status : Status
  queueNumber : Nat
  createdAt : Nat
deriving DecidableEq, Repr

/-- The authenticated Firebase user visible to `handleJoinQueue`. -/
structure UserAuth where
  uid : Nat
  displayName : Option String
  phoneNumber : Option String
deriving DecidableEq, Repr

/-- The `users/{uid}` document, reduced to the field the router reads. -/
structure UserData where
  role : Role
deriving DecidableEq, Repr

/-- The two Firestore collections the queue engine touches. -/
structure Store where
  services : List Service
  queue : List QueueEntry
deriving DecidableEq, Repr

/-- The filter `where("status", "in", ["waiting", "in-service"])` used by
every queue query in the source: an entry is active when it is waiting
or in service. -/
def isActive (e : QueueEntry) : Bool :=
  e.status == Status.waiting || e.status == Status.inService

/-- Outcome of `handleJoinQueue`: the silent early return when `user` or
`db` is missing, the "You are already in the queue." alert, or a
successful insertion of the given entry. -/
inductive JoinResult where
  | silent
  | alreadyQueued
  | joined (e : QueueEntry)
deriving DecidableEq, Repr

/-- The `handleJoinQueue` handler of `ServiceSelectionPage`
(src/App.js line 412): bail out silently when `user` or `db` is absent;
query the caller's active entries and alert `alreadyQueued` when any
exist; otherwise count all active entries, and insert a new waiting
entry carrying the denormalized service name and duration, queue number
`count + 1`, the fresh document id `newId` and the server timestamp
`now`. -/
def handleJoinQueue (user : Option UserAuth) (db : Bool) (store : Store)
    (service : Service) (newId : Nat) (now : Nat) : Store × JoinResult :=
  match user, db with
  | some u, true =>
    let existing := store.queue.filter (fun e => e.userId == u.uid && isActive e)
    if existing.isEmpty then
      let active := store.queue.filter isActive
      let entry : QueueEntry :=
        { id := newId
          userId := u.uid
          userName := u.displayName.getD (u.phoneNumber.getD (""))
          userPhone := u.phoneNumber
          serviceId := service.id
          serviceName := service.name
          serviceDuration := service.duration
          status := Status.waiting
          queueNumber := active.length + 1
          createdAt := now }
      ({ store with queue := store.queue ++ [entry] }, JoinResult.joined entry)
    else
      (store, JoinResult.alreadyQueued)
  | _, _ => (store, JoinResult.silent)

/-- C1 — A join request by a customer who already holds an active entry
fails with the already-queued alert and returns the store unchanged: no
entry is inserted and nothing else in the store moves. -/
theorem join_alreadyQueued_leaves_store_unchanged
    (u : UserAuth) (store : Store) (service : Service) (newId now : Nat)
    (e : QueueEntry) (he : e ∈ store.queue)
    (hu : e.userId = u.uid) (ha : isActive e = true) :
    handleJoinQueue (some u) true store service newId now
      = (store, JoinResult.alreadyQueued) := by
  have hmem : e ∈ store.queue.filter (fun e => e.userId == u.uid && isActive e) := by
    refine List.mem_filter.mpr ⟨he, ?_⟩
    simp [hu, ha]
  have hne : store.queue.filter (fun e => e.userId == u.uid && isActive e) ≠ [] := by
    intro hnil
    rw [hnil] at hmem
    exact List.not_mem_nil _ hmem
  have hemp : (store.queue.filter (fun e => e.userId == u.uid && isActive e)).isEmpty = false := by
    cases hq : store.queue.filter (fun e => e.userId == u.uid && isActive e) with
    | nil => exact absurd hq hne
    | cons a l => simp [List.isEmpty]
  simp only [handleJoinQueue, hemp]
  rfl

/-- Witness for C1: a concrete store with an active entry for uid 7
rejects the join and is returned unchanged. -/
def exEntryC1 : QueueEntry :=
  { id := 1, userId := 7, userName := "A", userPhone := none,
    serviceId := 3, serviceName := "Haircut", serviceDuration := 30,
    status := Status.waiting, queueNumber := 1, createdAt := 10 }

/-- Concrete store used by the C1 witness. -/
def exStoreC1 : Store := { services := [], queue := [exEntryC1] }

/-- Concrete service used by the join witnesses. -/
def exServiceC1 : Service := { id := 3, name := "Haircut", duration := 30, price := 200 }

/-- Witness for C1 at a concrete input. -/
theorem join_alreadyQueued_leaves_store_unchanged_witness :
    handleJoinQueue (some { uid := 7, displayName := some ("A"), phoneNumber := none })
        true exStoreC1 exServiceC1 2 11
      = (exStoreC1, JoinResult.alreadyQueued) :=
  join_alreadyQueued_leaves_store_unchanged
    { uid := 7, displayName := some ("A"), phoneNumber := none }
    exStoreC1 exServiceC1 2 11 exEntryC1 (by decide) (by decide) (by decide)

/-- C4 — A successful join inserts exactly one new entry, with status
`waiting`, queue number equal to the number of active entries at join
time plus one, and the server-assigned timestamp `now` in `createdAt`. -/
theorem join_success_shape
    (u : UserAuth) (store : Store) (service : Service) (newId now : Nat)
    (h : ∀ e ∈ store.queue, ¬(e.userId = u.uid ∧ isActive e = true)) :
    ∃ e, handleJoinQueue (some u) true store service newId now
        = ({ store with queue := store.queue ++ [e] }, JoinResult.joined e)
      ∧ e.status = Status.waiting
      ∧ e.queueNumber = (store.queue.filter isActive).length + 1
      ∧ e.createdAt = now := by
  have hnil : store.queue.filter (fun e => e.userId == u.uid && isActive e) = [] := by
    refine List.filter_eq_nil_iff.mpr ?_
    intro e he
    intro hb
    simp only [Bool.and_eq_true, beq_iff_eq] at hb
    exact h e he hb
  refine ⟨{ id := newId
            userId := u.uid
            userName := u.displayName.getD (u.phoneNumber.getD (""))
            userPhone := u.phoneNumber
            serviceId := service.id
            serviceName := service.name
            serviceDuration := service.duration
            status := Status.waiting
            queueNumber := (store.queue.filter isActive).length + 1
            createdAt := now }, ?_, rfl, rfl, rfl⟩
  simp only [handleJoinQueue, hnil]
  rfl

/-- Witness for C4: joining an empty store yields a waiting entry with
queue number 1 and the supplied timestamp. -/
theorem join_success_shape_witness :
    ∃ e, handleJoinQueue (some { uid := 9, displayName := none, phoneNumber := some ("99") })
        true { services := [exServiceC1], queue := [] } exServiceC1 5 42
        = ({ services := [exServiceC1], queue := [] ++ [e] }, JoinResult.joined e)
      ∧ e.status = Status.waiting
      ∧ e.queueNumber = (List.filter isActive []).length + 1
      ∧ e.createdAt = 42 :=
  join_success_shape { uid := 9, displayName := none, phoneNumber := some ("99") }
    { services := [exServiceC1], queue := [] } exServiceC1 5 42 (by decide)

/-- C10 — When the handler runs with no authenticated user or no
database handle it returns silently: the store is untouched, no entry is
created, and no alert is raised. -/
theorem join_without_user_or_db_is_silent
    (user : Option UserAuth) (db : Bool) (store : Store)
    (service : Service) (newId now : Nat)
    (h : user = none ∨ db = false) :
    handleJoinQueue user db store service newId now = (store, JoinResult.silent) := by
  rcases h with h | h
  · subst h
    cases db <;> rfl
  · subst h
    cases user <;> rfl

/-- Witness for C10 at a concrete input. -/
theorem join_without_user_or_db_is_silent_witness :
    handleJoinQueue none true exStoreC1 exServiceC1 2 11
      = (exStoreC1, JoinResult.silent) :=
  join_without_user_or_db_is_silent none true exStoreC1 exServiceC1 2 11 (Or.inl rfl)

/-- The `snapshot.docs.forEach((doc, index) => ...)` loop of the second
effect in `QueueStatusPage` (src/App.js line 413), transcribed as a
structural recursion over the remaining docs.  The accumulator carries
the loop variables `position`, `waitTime` and `found` exactly as the
source mutates them: a doc owned by `uid` sets `position := index + 1`
and latches `found`; afterwards, a doc checks `!found && status ===
waiting` and, if so, adds its `serviceDuration` to `waitTime`. -/
def scanDocs (uid : Nat) : List QueueEntry → Nat → Nat → Int → Bool → Nat × Int
  | [], _, position, waitTime, _ => (position, waitTime)
  | d :: rest, index, position, waitTime, found =>
    let isMe := d.userId == uid
    let position1 := if isMe then index + 1 else position
    let found1 := isMe || found
    let waitTime1 :=
      if !found1 && d.status == Status.waiting then waitTime + d.serviceDuration
      else waitTime
    scanDocs uid rest (index + 1) position1 waitTime1 found1

/-- The position and estimated wait that `QueueStatusPage` derives from
a snapshot of the active queue ordered by `createdAt`: the loop starts
from `position = 0`, `waitTime = 0`, `found = false`. -/
def computePositionWait (uid : Nat) (docs : List QueueEntry) : Nat × Int :=
  scanDocs uid docs 0 0 0 false

/-- Sum of the service durations of the waiting entries of a list; the
quantity the spec calls the estimated wait contributed by those
entries. -/
def waitingSum (docs : List QueueEntry) : Int :=
  ((docs.filter (fun e => e.status == Status.waiting)).map QueueEntry.serviceDuration).sum

/-- Once `found` is latched and no later doc belongs to `uid`, the scan
changes neither the position nor the accumulated wait. -/
theorem scanDocs_found_fixed (uid : Nat) (rest : List QueueEntry)
    (h : ∀ e ∈ rest, e.userId ≠ uid) :
    ∀ (index position : Nat) (waitTime : Int),
      scanDocs uid rest index position waitTime true = (position, waitTime) := by
  induction rest with
  | nil => intro index position waitTime; rfl
  | cons d rest ih =>
    intro index position waitTime
    have hd : d.userId ≠ uid := h d (List.mem_cons_self d rest)
    have hrest : ∀ e ∈ rest, e.userId ≠ uid := fun e he => h e (List.mem_cons_of_mem d he)
    have hbeq : (d.userId == uid) = false := beq_eq_false_iff_ne.mpr hd
    have hstep : scanDocs uid (d :: rest) index position waitTime true
        = scanDocs uid rest (index + 1) position waitTime true := by
      simp [scanDocs, hbeq]
    rw [hstep, ih hrest]

/-- Scanning a block of docs none of which belongs to `uid`, with
`found` still false, leaves the position alone, accumulates the waiting
durations of the block, and advances the index by its length. -/
theorem scanDocs_skip_block (uid : Nat) (pre : List QueueEntry)
    (h : ∀ e ∈ pre, e.userId ≠ uid) :
    ∀ (l : List QueueEntry) (index position : Nat) (waitTime : Int),
      scanDocs uid (pre ++ l) index position waitTime false
        = scanDocs uid l (index + pre.length) position (waitTime + waitingSum pre) false := by
  induction pre with
  | nil =>
    intro l index position waitTime
    simp [waitingSum]
  | cons d pre ih =>
    intro l index position waitTime
    have hd : d.userId ≠ uid := h d (List.mem_cons_self d pre)
    have hpre : ∀ e ∈ pre, e.userId ≠ uid := fun e he => h e (List.mem_cons_of_mem d he)
    have hbeq : (d.userId == uid) = false := beq_eq_false_iff_ne.mpr hd
    cases hw : d.status == Status.waiting with
    | true =>
      have hsum : waitingSum (d :: pre) = d.serviceDuration + waitingSum pre := by
        simp [waitingSum, hw]
      calc scanDocs uid ((d :: pre) ++ l) index position waitTime false
          = scanDocs uid (pre ++ l) (index + 1) position (waitTime + d.serviceDuration) false := by
            simp [scanDocs, hbeq, hw]
        _ = scanDocs uid l ((index + 1) + pre.length) position
              ((waitTime + d.serviceDuration) + waitingSum pre) false :=
            ih hpre l (index + 1) position (waitTime + d.serviceDuration)
        _ = scanDocs uid l (index + (d :: pre).length) position
              (waitTime + waitingSum (d :: pre)) false := by
            rw [hsum]
            have h1 : (index + 1) + pre.length = index + (d :: pre).length := by
              simp only [List.length_cons]
              omega
            have h2 : (waitTime + d.serviceDuration) + waitingSum pre
                = waitTime + (d.serviceDuration + waitingSum pre) := by ring
            rw [h1, h2]
    | false =>
      have hsum : waitingSum (d :: pre) = waitingSum pre := by
        simp [waitingSum, hw]
      calc scanDocs uid ((d :: pre) ++ l) index position waitTime false
          = scanDocs uid (pre ++ l) (index + 1) position waitTime false := by
            simp [scanDocs, hbeq, hw]
        _ = scanDocs uid l ((index + 1) + pre.length) position
              (waitTime + waitingSum pre) false :=
            ih hpre l (index + 1) position waitTime
        _ = scanDocs uid l (index + (d :: pre).length) position
              (waitTime + waitingSum (d :: pre)) false := by
            rw [hsum]
            have h1 : (index + 1) + pre.length = index + (d :: pre).length := by
              simp only [List.length_cons]
              omega
            rw [h1]

/-- C2 — On a snapshot of the active set in rank order in which the
customer owns exactly one entry, the estimated wait computed by
`QueueStatusPage` is the sum of the service durations of the waiting
entries strictly ahead of that entry; in-service entries ahead and all
entries at or after it contribute nothing.  The computed position is the
entry's 1-based rank. -/
theorem estimatedWait_sums_waiting_ahead
    (uid : Nat) (pre post : List QueueEntry) (t : QueueEntry)
    (ht : t.userId = uid)
    (hpre : ∀ e ∈ pre, e.userId ≠ uid)
    (hpost : ∀ e ∈ post, e.userId ≠ uid) :
    computePositionWait uid (pre ++ t :: post)
      = (pre.length + 1, waitingSum pre) := by
  have hbeq : (t.userId == uid) = true := beq_iff_eq.mpr ht
  have hstep : scanDocs uid (t :: post) pre.length 0 (waitingSum pre) false
      = scanDocs uid post (pre.length + 1) (pre.length + 1) (waitingSum pre) true := by
    simp [scanDocs, hbeq]
  calc computePositionWait uid (pre ++ t :: post)
      = scanDocs uid (pre ++ t :: post) 0 0 0 false := rfl
    _ = scanDocs uid (t :: post) (0 + pre.length) 0 (0 + waitingSum pre) false :=
        scanDocs_skip_block uid pre hpre (t :: post) 0 0 0
    _ = scanDocs uid (t :: post) pre.length 0 (waitingSum pre) false := by
        rw [Nat.zero_add]
        rw [zero_add]
    _ = scanDocs uid post (pre.length + 1) (pre.length + 1) (waitingSum pre) true := hstep
    _ = (pre.length + 1, waitingSum pre) :=
        scanDocs_found_fixed uid post hpost (pre.length + 1) (pre.length + 1) (waitingSum pre)

/-- Entries used by the estimator witnesses and counterexamples. -/
def exWaiting20 : QueueEntry :=
  { id := 21, userId := 1, userName := "P", userPhone := none,
    serviceId := 4, serviceName := "Shave", serviceDuration := 20,
    status := Status.waiting, queueNumber := 1, createdAt := 1 }

/-- An in-service entry ahead of the target in the C2 witness. -/
def exInService40 : QueueEntry :=
  { id := 22, userId := 2, userName := "Q", userPhone := none,
    serviceId := 5, serviceName := "Color", serviceDuration := 40,
    status := Status.inService, queueNumber := 2, createdAt := 2 }

/-- The target customer's entry in the C2 witness. -/
def exTarget : QueueEntry :=
  { id := 23, userId := 3, userName := "R", userPhone := none,
    serviceId := 3, serviceName := "Haircut", serviceDuration := 30,
    status := Status.waiting, queueNumber := 3, createdAt := 3 }

/-- An entry behind the target in the C2 witness. -/
def exBehind15 : QueueEntry :=
  { id := 24, userId := 4, userName := "S", userPhone := none,
    serviceId := 4, serviceName := "Shave", serviceDuration := 15,
    status := Status.waiting, queueNumber := 4, createdAt := 4 }

/-- Witness for C2: ahead of uid 3 sit one waiting entry (20 min) and
one in-service entry (40 min), and one waiting entry sits behind; the
estimate is 20 and the position is 3. -/
theorem estimatedWait_sums_waiting_ahead_witness :
    computePositionWait 3 ([exWaiting20, exInService40] ++ exTarget :: [exBehind15])
      = ([exWaiting20, exInService40].length + 1, waitingSum [exWaiting20, exInService40])
    ∧ waitingSum [exWaiting20, exInService40] = 20 :=
  ⟨estimatedWait_sums_waiting_ahead 3 [exWaiting20, exInService40] [exBehind15] exTarget
      (by decide) (by decide) (by decide),
   by decide⟩

/-- Counterexample for C5 as stated: uid 9 has no entry in a snapshot
holding one waiting 20-minute entry of another customer; the computed
position is 0 (the "not queued" marker) but the computed estimated wait
is 20, not 0. -/
theorem noEntry_wait_not_zero_counterexample :
    (∀ e ∈ [exWaiting20], e.userId ≠ 9)
    ∧ isActive exWaiting20 = true
    ∧ computePositionWait 9 [exWaiting20] = (0, 20)
    ∧ ((20 : Int) ≠ 0) := by
  decide

/-- C5 amended — For a customer with no entry in the snapshot the
estimator leaves the position at 0, which the page treats as "not
queued", but the estimated wait it computes is the sum of the durations
of all waiting entries in the snapshot, not 0 (the `found` flag never
latches, so every waiting doc is added). -/
theorem noEntry_position_zero_wait_total
    (uid : Nat) (docs : List QueueEntry)
    (h : ∀ e ∈ docs, e.userId ≠ uid) :
    computePositionWait uid docs = (0, waitingSum docs) := by
  have happ : docs ++ ([] : List QueueEntry) = docs := List.append_nil docs
  calc computePositionWait uid docs
      = scanDocs uid (docs ++ []) 0 0 0 false := by rw [happ]; rfl
    _ = scanDocs uid [] (0 + docs.length) 0 (0 + waitingSum docs) false :=
        scanDocs_skip_block uid docs h [] 0 0 0
    _ = (0, 0 + waitingSum docs) := rfl
    _ = (0, waitingSum docs) := by rw [zero_add]

/-- Witness for the amended C5 at a concrete input. -/
theorem noEntry_position_zero_wait_total_witness :
    computePositionWait 9 [exWaiting20, exInService40]
      = (0, waitingSum [exWaiting20, exInService40])
    ∧ waitingSum [exWaiting20, exInService40] = 20 :=
  ⟨noEntry_position_zero_wait_total 9 [exWaiting20, exInService40] (by decide), by decide⟩

/-- The `handleAction` handler of `QueueManagementPage` (src/App.js
lines 427-430): `updateDoc(doc(db, "queue", id), { status: newStatus })`
overwrites the status of the document with the given id and checks
nothing else — no legality table, no read of the current status, no
actor role, and no failure path. -/
def handleAction (store : Store) (id : Nat) (newStatus : Status) : Store :=
  { store with
    queue := store.queue.map (fun e => if e.id == id then { e with status := newStatus } else e) }

/-- The Start button of a staff queue row (src/App.js line 474) is
rendered exactly when `item.status === 'waiting'`; pressing it calls
`handleAction(item.id, 'in-service')`. -/
def startOffered (e : QueueEntry) : Bool :=
  e.status == Status.waiting

/-- The Complete button of a staff queue row (src/App.js line 475) is
rendered exactly when `item.status === 'in-service'`; pressing it calls
`handleAction(item.id, 'completed')`. -/
def completeOffered (e : QueueEntry) : Bool :=
  e.status == Status.inService

/-- The Remove button of a staff queue row (src/App.js line 476) is
rendered for every row of the table, unconditionally. -/
def removeOffered (_ : QueueEntry) : Bool :=
  true

/-- The `executeRemove` handler of `QueueManagementPage` (src/App.js
lines 434-439): when a removal is pending confirmation it deletes the
queue document with the confirmed id outright (`deleteDoc`) and clears
the pending id; otherwise it does nothing. -/
def executeRemove (store : Store) (confirmingDelete : Option Nat) : Store × Option Nat :=
  match confirmingDelete with
  | some id => ({ store with queue := store.queue.filter (fun e => !(e.id == id)) }, none)
  | none => (store, confirmingDelete)

/-- Concrete waiting entry acted on in the C3 counterexample. -/
def exEntryC3 : QueueEntry :=
  { id := 11, userId := 5, userName := "T", userPhone := none,
    serviceId := 3, serviceName := "Haircut", serviceDuration := 30,
    status := Status.waiting, queueNumber := 1, createdAt := 6 }

/-- Concrete store acted on in the C3 counterexample. -/
def exStoreC3 : Store := { services := [], queue := [exEntryC3] }

/-- Counterexample for C3 as stated: applying Complete (the write of
status `completed`) to a `waiting` entry does not fail with an
illegal-transition error — `handleAction` has no failure result at all
— and does not leave the entry unchanged: the entry becomes
`completed`. -/
theorem complete_on_waiting_succeeds_counterexample :
    exEntryC3.status = Status.waiting
    ∧ handleAction exStoreC3 11 Status.completed
        = { services := [], queue := [{ exEntryC3 with status := Status.completed }] }
    ∧ ({ exEntryC3 with status := Status.completed } : QueueEntry) ≠ exEntryC3 := by
  decide

/-- C3 amended — The legality table survives only as UI gating: a staff
queue row offers Start exactly on `waiting` entries and Complete exactly
on `in-service` entries (Remove is always offered).  The underlying
`handleAction` is unconditional: for every entry and every requested
status it rewrites the entry's status to the requested value, and it
never fails with an illegal-transition error. -/
theorem transition_gating_and_unconditional_update
    (store : Store) (e : QueueEntry) (s : Status) (he : e ∈ store.queue) :
    (startOffered e = true ↔ e.status = Status.waiting)
    ∧ (completeOffered e = true ↔ e.status = Status.inService)
    ∧ removeOffered e = true
    ∧ ({ e with status := s } : QueueEntry) ∈ (handleAction store e.id s).queue := by
  refine ⟨beq_iff_eq, beq_iff_eq, rfl, ?_⟩
  have hmem : (fun x => if x.id == e.id then { x with status := s } else x) e
      ∈ (handleAction store e.id s).queue :=
    List.mem_map_of_mem _ he
  simpa using hmem

/-- Witness for the amended C3 at a concrete input. -/
theorem transition_gating_and_unconditional_update_witness :
    (startOffered exEntryC3 = true ↔ exEntryC3.status = Status.waiting)
    ∧ (completeOffered exEntryC3 = true ↔ exEntryC3.status = Status.inService)
    ∧ removeOffered exEntryC3 = true
    ∧ ({ exEntryC3 with status := Status.completed } : QueueEntry)
        ∈ (handleAction exStoreC3 exEntryC3.id Status.completed).queue :=
  transition_gating_and_unconditional_update exStoreC3 exEntryC3 Status.completed (by decide)

/-- Concrete active entry removed in the C6 counterexample. -/
def exEntryC6 : QueueEntry :=
  { id := 31, userId := 6, userName := "U", userPhone := none,
    serviceId := 4, serviceName := "Shave", serviceDuration := 15,
    status := Status.inService, queueNumber := 1, createdAt := 8 }

/-- Concrete store acted on in the C6 counterexample. -/
def exStoreC6 : Store := { services := [], queue := [exEntryC6] }

/-- Counterexample for C6 as stated: removing an active entry does not
produce any entry whose status is `removed` — the document is deleted
outright, so after the removal the queue holds no entry with that id at
all, with any status. -/
theorem remove_sets_no_removed_status_counterexample :
    isActive exEntryC6 = true
    ∧ (executeRemove exStoreC6 (some 31)).1.queue = []
    ∧ ¬ (∃ e ∈ (executeRemove exStoreC6 (some 31)).1.queue,
          e.id = 31 ∧ e.status = Status.removed) := by
  decide

/-- C6 amended — The staff Remove action deletes the entry's document
from the queue collection outright (no `removed` status is ever
stored): after `executeRemove` no entry with the removed id remains, so
in particular the entry is gone from the active set, while every entry
with a different id is kept unchanged. -/
theorem remove_deletes_entry
    (store : Store) (id : Nat) :
    (∀ e ∈ (executeRemove store (some id)).1.queue, e.id ≠ id)
    ∧ (∀ e ∈ store.queue, e.id ≠ id → e ∈ (executeRemove store (some id)).1.queue) := by
  constructor
  · intro e he
    have hp := List.of_mem_filter he
    intro hid
    rw [hid] at hp
    simp at hp
  · intro e he hid
    refine List.mem_filter.mpr ⟨he, ?_⟩
    simp [hid]

/-- Witness for the amended C6 at a concrete input: in a two-entry
store, removing id 31 keeps the other entry. -/
theorem remove_deletes_entry_witness :
    exEntryC1 ∈ (executeRemove { services := [], queue := [exEntryC6, exEntryC1] }
        (some 31)).1.queue :=
  (remove_deletes_entry { services := [], queue := [exEntryC6, exEntryC1] } 31).2
    exEntryC1 (by decide) (by decide)

/-- Pages that `renderContent` (src/App.js lines 220-255) can render. -/
inductive Page where
  | setup
  | loading
  | kioskHome
  | kioskJoin
  | kioskBoard
  | login
  | dashboard
  | serviceSelection
  | queueStatus
deriving DecidableEq, Repr

/-- The route test `/^\/kiosk(\/.*)?$/` of `renderContent`: the kiosk
branch is taken for the exact route `/kiosk` and for any route starting
with `/kiosk/`. -/
def isKioskRoute (route : String) : Bool :=
  route == ("/kiosk") || List.isPrefixOf ("/kiosk/").toList route.toList

/-- The `renderContent` router of the main `App` component: setup screen
without a config, spinner while Firebase initializes or auth loads,
kiosk pages on kiosk routes, login page without a user, the staff
dashboard whenever `userData?.role` is `owner` or `staff`, and otherwise
the customer pages selected by the route (defaulting to service
selection). -/
def renderContent (firebaseConfig firebaseServices : Bool) (authLoading : Bool)
    (route : String) (user : Option UserAuth) (userData : Option UserData) : Page :=
  if firebaseConfig = false then Page.setup
  else if firebaseServices = false || authLoading then Page.loading
  else if isKioskRoute route then
    if route == ("/kiosk") || route == ("/kiosk/home") then Page.kioskHome
    else if route == ("/kiosk/join") then Page.kioskJoin
    else if route == ("/kiosk/board") then Page.kioskBoard
    else Page.kioskHome
  else
    match user with
    | none => Page.login
    | some _ =>
      if userData.map UserData.role == some Role.owner
          || userData.map UserData.role == some Role.staff then Page.dashboard
      else if route == ("/services") then Page.serviceSelection
      else if route == ("/queue-status") then Page.queueStatus
      else Page.serviceSelection

/-- Counterexample for C7 as stated: the transition handler takes no
actor role and has no unauthorized-failure path; whoever reaches it, it
rewrites the entry instead of leaving it unchanged.  Concretely, a
customer-role session is routed to the customer pages, never the
dashboard, yet `handleAction` itself — the only transition code —
mutates the waiting entry to `in-service` and reports no error. -/
theorem transition_without_role_check_counterexample :
    renderContent true true false ("/services")
        (some { uid := 5, displayName := none, phoneNumber := none })
        (some { role := Role.customer })
      = Page.serviceSelection
    ∧ handleAction exStoreC3 11 Status.inService
        = { services := [], queue := [{ exEntryC3 with status := Status.inService }] }
    ∧ ({ exEntryC3 with status := Status.inService } : QueueEntry) ≠ exEntryC3 := by
  refine ⟨?_, by decide, by decide⟩
  decide

/-- C7 amended — Role enforcement is routing, not an error: once the app
is initialized and a user is signed in on a non-kiosk route, the staff
dashboard — the only page exposing the transition actions — is rendered
exactly when the user's role is `owner` or `staff`; `handleAction`
itself consults no role and rewrites the target entry's status
unconditionally. -/
theorem dashboard_shown_iff_staff_or_owner
    (route : String) (u : UserAuth) (d : UserData)
    (hk : isKioskRoute route = false) :
    (renderContent true true false route (some u) (some d) = Page.dashboard
      ↔ (d.role = Role.owner ∨ d.role = Role.staff))
    ∧ (∀ (store : Store) (e : QueueEntry) (s : Status), e ∈ store.queue →
        ({ e with status := s } : QueueEntry) ∈ (handleAction store e.id s).queue) := by
  constructor
  · constructor
    · intro hpage
      by_contra hno
      push_neg at hno
      obtain ⟨hno1, hno2⟩ := hno
      simp [renderContent, hk, hno1, hno2] at hpage
      by_cases h1 : route = ("/services") <;> by_cases h2 : route = ("/queue-status") <;>
        simp [h1, h2] at hpage
    · intro hrole
      rcases hrole with h | h <;> simp [renderContent, hk, h]
  · intro store e s he
    have hmem : (fun x => if x.id == e.id then { x with status := s } else x) e
        ∈ (handleAction store e.id s).queue :=
      List.mem_map_of_mem _ he
    simpa using hmem

/-- Witness for the amended C7 at a concrete input. -/
theorem dashboard_shown_iff_staff_or_owner_witness :
    (renderContent true true false ("/services")
        (some { uid := 5, displayName := none, phoneNumber := none })
        (some { role := Role.staff }) = Page.dashboard
      ↔ (Role.staff = Role.owner ∨ Role.staff = Role.staff))
    ∧ (∀ (store : Store) (e : QueueEntry) (s : Status), e ∈ store.queue →
        ({ e with status := s } : QueueEntry) ∈ (handleAction store e.id s).queue) :=
  dashboard_shown_iff_staff_or_owner ("/services")
    { uid := 5, displayName := none, phoneNumber := none } { role := Role.staff } (by decide)

/-- The progress-bar width computed by `QueueStatusPage`
(src/App.js line 413): `Math.max(0, 100 - ((queuePosition - 1) * 25))`.
The source applies no upper bound. -/
def progressWidth (queuePosition : Int) : Int :=
  max 0 (100 - (queuePosition - 1) * 25)

/-- Counterexample for C8 as stated: at position 0 — the value
`queuePosition` holds before the customer's entry is located in the
ranked snapshot — the computed width is 125, above 100, so the value is
not clamped to the interval claimed. -/
theorem progressWidth_exceeds_100_counterexample :
    progressWidth 0 = 125 ∧ ¬ ((125 : Int) ≤ 100) := by
  decide

/-- C8 amended — The displayed width equals
`max 0 (100 - (position - 1) * 25)`; it is never negative, and for every
position ≥ 1 (every position of a customer actually found in the
snapshot) it also stays at most 100, but no upper clamp is applied and
position 0 yields 125. -/
theorem progressWidth_bounds (p : Int) (hp : 1 ≤ p) :
    progressWidth p = max 0 (100 - (p - 1) * 25)
    ∧ 0 ≤ progressWidth p ∧ progressWidth p ≤ 100 := by
  refine ⟨rfl, le_max_left 0 _, ?_⟩
  have h1 : (0 : Int) ≤ p - 1 := by omega
  have hmul : (0 : Int) ≤ (p - 1) * 25 := mul_nonneg h1 (by norm_num)
  have hle : 100 - (p - 1) * 25 ≤ (100 : Int) := by omega
  exact max_le (by norm_num) hle

/-- Witness for the amended C8 at position 3: the width is 50. -/
theorem progressWidth_bounds_witness :
    (progressWidth 3 = max 0 (100 - ((3 : Int) - 1) * 25)
      ∧ 0 ≤ progressWidth 3 ∧ progressWidth 3 ≤ 100)
    ∧ progressWidth 3 = 50 :=
  ⟨progressWidth_bounds 3 (by decide), by decide⟩

/-- The `executeDelete` handler of `ServiceManagementPage`
(src/App.js line 488): when a deletion is pending confirmation it
deletes the service document with the confirmed id from the `services`
collection and clears the pending id; it never touches the `queue`
collection. -/
def executeDelete (store : Store) (confirmingDelete : Option Nat) : Store × Option Nat :=
  match confirmingDelete with
  | some id => ({ store with services := store.services.filter (fun s => !(s.id == id)) }, none)
  | none => (store, confirmingDelete)

/-- Modelled from the spec: the save path of the service form modal in
`ServiceManagementPage` is cut off in the provided source file, so the
service-edit operation is taken from the spec's data model (§3), which
says staff edit `Service` records referenced by id — an edit rewrites
the fields of the one service document with the given id and touches
nothing else, in particular no queue document. -/
def editService (store : Store) (id : Nat) (name1 : String) (duration1 price1 : Int) : Store :=
  { store with
    services := store.services.map (fun s =>
      if s.id == id then { s with name := name1, duration := duration1, price := price1 }
      else s) }

/-- C9 — The queue entry created by a join carries copies of the
service's name and duration taken at join time, and both service
deletion and service editing leave the `queue` collection — hence those
copied fields of every in-flight entry — untouched. -/
theorem joined_entry_copies_service_fields
    (user : Option UserAuth) (db : Bool) (store : Store) (service : Service)
    (newId now : Nat) (e : QueueEntry)
    (hj : (handleJoinQueue user db store service newId now).2 = JoinResult.joined e) :
    e.serviceName = service.name ∧ e.serviceDuration = service.duration
    ∧ (∀ (s : Store) (c : Option Nat), ((executeDelete s c).1).queue = s.queue)
    ∧ (∀ (s : Store) (id : Nat) (nm : String) (dur pr : Int),
        (editService s id nm dur pr).queue = s.queue) := by
  have hframe1 : ∀ (s : Store) (c : Option Nat), ((executeDelete s c).1).queue = s.queue := by
    intro s c
    cases c <;> rfl
  have hframe2 : ∀ (s : Store) (id : Nat) (nm : String) (dur pr : Int),
      (editService s id nm dur pr).queue = s.queue := by
    intro s id nm dur pr
    rfl
  cases user with
  | none =>
    simp [handleJoinQueue] at hj
  | some u =>
    cases db with
    | false =>
      simp [handleJoinQueue] at hj
    | true =>
      simp only [handleJoinQueue] at hj
      split at hj
      · simp only [JoinResult.joined.injEq] at hj
        subst hj
        exact ⟨rfl, rfl, hframe1, hframe2⟩
      · simp at hj

/-- Witness for C9: the entry produced by a concrete successful join
carries the service's name and duration. -/
theorem joined_entry_copies_service_fields_witness :
    ({ id := 5, userId := 9, userName := "99", userPhone := some ("99"),
       serviceId := 3, serviceName := "Haircut", serviceDuration := 30,
       status := Status.waiting, queueNumber := 1, createdAt := 42 } : QueueEntry).serviceName
        = exServiceC1.name
    ∧ ({ id := 5, userId := 9, userName := "99", userPhone := some ("99"),
         serviceId := 3, serviceName := "Haircut", serviceDuration := 30,
         status := Status.waiting, queueNumber := 1, createdAt := 42 } : QueueEntry).serviceDuration
        = exServiceC1.duration
    ∧ (∀ (s : Store) (c : Option Nat), ((executeDelete s c).1).queue = s.queue)
    ∧ (∀ (s : Store) (id : Nat) (nm : String) (dur pr : Int),
        (editService s id nm dur pr).queue = s.queue) :=
  joined_entry_copies_service_fields
    (some { uid := 9, displayName := none, phoneNumber := some ("99") }) true
    { services := [exServiceC1], queue := [] } exServiceC1 5 42
    { id := 5, userId := 9, userName := "99", userPhone := some ("99"),
      serviceId := 3, serviceName := "Haircut", serviceDuration := 30,
      status := Status.waiting, queueNumber := 1, createdAt := 42 }
    rfl
